import Mathlib

/-
Verification development for the Inferno CLI bootstrap-and-bridge layer.

Shallow embedding of:
  - the ScanEvent data model        (src/cli/src/types.ts, src/unnamed/part_002)
  - the ScanDisplay event handler   (src/cli/src/components/TargetInput.tsx, ScanDisplay
                                     component, lines 101-134; bundled copy src/unnamed/part_001)
  - the PythonBridge process bridge (src/cli/src/utils/bridge.ts)
  - the TargetInput submission flow (src/cli/src/components/TargetInput.tsx, lines 19-32)
  - the Docker bootstrap            (src/unnamed/part_003, ensureDocker and helpers)

Modelling conventions: JavaScript numbers used as event timestamps are
modelled as Nat; JSON.parse of a stdout line is abstracted into a
classification of each line (blank / non-JSON junk / a parsed event),
since none of the verified properties depend on the JSON grammar itself;
the async interleavings relevant to stop() are modelled by explicit
schedules (which lines were delivered before the stop, which lines were
already buffered at the stop).
-/

/-- Scan event union, from src/cli/src/types.ts (src/unnamed/part_002 lines 12-60).
Variants: progress, agent_action, vulnerability, complete, error.  Every variant
declared in the source carries a numeric `timestamp`; the error variant is given
an `Option Nat` timestamp here because the bridge's synthesized error object
(src/cli/src/utils/bridge.ts lines 57-61) is built without a timestamp field,
and a JavaScript object field that is absent reads as `undefined`. -/
inductive ScanEvent where
  | progress (step message : String) (timestamp : Nat) (fullReasoning : Option String)
  | agentAction (agent action : String) (command result : Option String) (timestamp : Nat)
  | vulnerability (severity title endpoint evidence : String) (timestamp : Nat)
  | complete (vulnerabilities : Nat) (time : Nat) (cost : Option String) (timestamp : Nat)
  | error (message : String) (stack : Option String) (timestamp : Option Nat)
deriving DecidableEq

/-- Value of `event.type` as a string, mirroring the discriminant strings of the
TypeScript union. -/
def typeStr (e : ScanEvent) : String :=
  match e with
  | .progress .. => "progress"
  | .agentAction .. => "agent_action"
  | .vulnerability .. => "vulnerability"
  | .complete .. => "complete"
  | .error .. => "error"

/-- Timestamp field of an event; `none` models a JavaScript object on which the
field is absent (only possible for the synthesized error event). -/
def timestampOf : ScanEvent → Option Nat
  | .progress _ _ ts _ => some ts
  | .agentAction _ _ _ _ ts => some ts
  | .vulnerability _ _ _ _ ts => some ts
  | .complete _ _ _ ts => some ts
  | .error _ _ tso => tso

/-- Value of `(event as any).message`: present only on progress and error
events; the other variants have no `message` property, which reads as
`undefined` in JavaScript. -/
def messageField : ScanEvent → Option String
  | .progress _ m _ _ => some m
  | .error m _ _ => some m
  | _ => none

/-- True exactly on the error variant. -/
def isErrorEvent (e : ScanEvent) : Bool :=
  match e with
  | .error .. => true
  | _ => false

/-- String interpolation of the timestamp field: a missing field interpolates
as the literal text "undefined" in a JavaScript template literal. -/
def tsStr : Option Nat → String
  | some t => Nat.repr t
  | none => "undefined"

/-- String interpolation of the message field: a missing field interpolates as
the literal text "undefined". -/
def msgStr : Option String → String
  | some m => m
  | none => "undefined"

/-- Dedup key computed by the ScanDisplay event callback
(src/cli/src/components/TargetInput.tsx line 106):
a template literal joining event.type, event.timestamp and
`(event as any).message` with dashes. -/
def dedupKey (e : ScanEvent) : String :=
  typeStr e ++ "-" ++ tsStr (timestampOf e) ++ "-" ++ msgStr (messageField e)

/-- Terminal-event test used by the callback
(src/cli/src/components/TargetInput.tsx line 112):
`event.type === 'complete' || event.type === 'error'`. -/
def isTerminal (e : ScanEvent) : Bool :=
  match e with
  | .complete .. => true
  | .error .. => true
  | _ => false

/-- ScanDisplay session state: the `logsRef` set of seen dedup keys (modelled as
a list queried with `contains`), the `events` array, and the `isComplete` flag
(src/cli/src/components/TargetInput.tsx lines 96-99). -/
structure DisplayState where
  seenKeys : List String
  events : List ScanEvent
  isComplete : Bool
deriving DecidableEq

/-- Initial ScanDisplay state: empty key set, empty event array, not complete. -/
def initState : DisplayState := ⟨[], [], false⟩

/-- One step of the ScanDisplay event callback
(src/cli/src/components/TargetInput.tsx lines 104-117): compute the dedup key;
if unseen, add the key and append the event; then, independently of the dedup
outcome, if the event is terminal set the completion flag.  The source performs
no other gating: events arriving after a terminal event go through the same
path. -/
def recordEvent (s : DisplayState) (e : ScanEvent) : DisplayState :=
  let key := dedupKey e
  let s1 :=
    if s.seenKeys.contains key then s
    else ⟨key :: s.seenKeys, s.events ++ [e], s.isComplete⟩
  if isTerminal e then ⟨s1.seenKeys, s1.events, true⟩ else s1

/-- Filter predicate of the log view
(src/cli/src/components/TargetInput.tsx lines 126-131): progress,
vulnerability, error and agent_action events are log lines; complete is not. -/
def isLogEvent (e : ScanEvent) : Bool :=
  match e with
  | .progress .. => true
  | .vulnerability .. => true
  | .error .. => true
  | .agentAction .. => true
  | .complete .. => false

/-- The filtered log history (`logEvents` in the source, line 126). -/
def logEvents (evs : List ScanEvent) : List ScanEvent := evs.filter isLogEvent

/-- The display window (`displayEvents` in the source, line 134):
`logEvents.slice(-15)`, i.e. the last 15 filtered events (all of them when
fewer than 15 exist). -/
def displayEvents (evs : List ScanEvent) : List ScanEvent :=
  (logEvents evs).drop ((logEvents evs).length - 15)

/-- Classification of one stdout line of the external process, abstracting the
body of the readline loop (src/cli/src/utils/bridge.ts lines 41-52): a line is
blank after trimming (skipped), non-JSON junk (JSON.parse throws, swallowed),
or parses to one event. -/
inductive StdoutLine where
  | blank
  | junk
  | parsed (e : ScanEvent)
deriving DecidableEq

/-- Event produced by one line of the readline loop, if any. -/
def lineEvent : StdoutLine → Option ScanEvent
  | .parsed e => some e
  | _ => none

/-- Events delivered to onEvent by the readline loop, in arrival order
(src/cli/src/utils/bridge.ts lines 41-52): exactly the parseable lines. -/
def loopEvents (ls : List StdoutLine) : List ScanEvent := ls.filterMap lineEvent

/-- The error event object built in the catch branch of startScan
(src/cli/src/utils/bridge.ts lines 57-61): only the fields type, message and
stack are set; no timestamp field is present. -/
def synthesizedError (msg : String) (stk : Option String) : ScanEvent :=
  ScanEvent.error msg stk none

/-- Events produced at the final `await this.process` of startScan
(src/cli/src/utils/bridge.ts lines 55-62).  The handle argument is the value of
`this.process` at that point: `none` when stop() already cleared it (awaiting
null resolves, catch not entered), `some ()` when the run was not stopped;
in the latter case a rejected process promise (non-zero exit, signal, spawn
failure) reaches the catch branch, which delivers one synthesized error, and
a resolved promise (exit code 0) delivers nothing. -/
def finishEvents : Option Unit → Bool → String → Option String → List ScanEvent
  | none, _, _, _ => []
  | some _, true, _, _ => []
  | some _, false, msg, stk => [synthesizedError msg stk]

/-- Full sequence of events a run of startScan delivers to onEvent when stop()
is never called: the loop events for all stdout lines, followed by the finish
events for the live handle (src/cli/src/utils/bridge.ts lines 41-62). -/
def runEvents (lines : List StdoutLine) (exitOk : Bool) (msg : String)
    (stk : Option String) : List ScanEvent :=
  loopEvents lines ++ finishEvents (some ()) exitOk msg stk

/-- Model of PythonBridge.stop (src/cli/src/utils/bridge.ts lines 65-70) acting
on the process handle: a live handle is killed (second component true) and
cleared; a cleared or never-set handle is left alone and nothing is killed. -/
def stopBridge : Option Unit → Option Unit × Bool
  | some _ => (none, true)
  | none => (none, false)

/-- Events delivered to onEvent after stop() is called mid-run, where
`buffered` are the stdout lines already read into the readline buffer when the
process is killed: the loop (src/cli/src/utils/bridge.ts lines 41-52) has no
stop guard and still delivers every parseable buffered line; the final await
then sees the handle that stop() cleared, so no error is synthesized even
though the killed process's promise rejects. -/
def postStopEvents (buffered : List StdoutLine) (msg : String)
    (stk : Option String) : List ScanEvent :=
  loopEvents buffered ++ finishEvents (stopBridge (some ())).1 false msg stk

/-- Number of terminal (complete or error) events in a delivered sequence. -/
def countTerminal (l : List ScanEvent) : Nat := l.countP (fun e => isTerminal e)

/-- Scan configuration, from src/cli/src/types.ts (src/unnamed/part_002
lines 5-10): target plus optional objective, provider, model. -/
structure ScanConfig where
  target : String
  objective : Option String
  provider : Option String
  model : Option String
deriving DecidableEq

/-- Config built by TargetInput.handleObjectiveSubmit
(src/cli/src/components/TargetInput.tsx lines 25-32):
`onSubmit({ target, objective: value || undefined })`; the empty string is the
only falsy string, so an empty objective becomes absent; provider and model are
never set by this flow. -/
def mkConfig (targetValue objectiveValue : String) : ScanConfig :=
  ⟨targetValue, if objectiveValue = "" then none else some objectiveValue, none, none⟩

/-- TargetInput submission flow (src/cli/src/components/TargetInput.tsx
lines 19-32): handleTargetSubmit stores any submitted target (no check), and
handleObjectiveSubmit always calls onSubmit, so every pair of submitted strings
produces a config; there is no rejection branch. -/
def submitFlow (targetValue objectiveValue : String) : Option ScanConfig :=
  some (mkConfig targetValue objectiveValue)

/-- Escaping of one character by JSON.stringify inside a string value:
quote, backslash and the common control characters get a backslash escape,
any other character is emitted as itself. -/
def jsonEscapeChar (ch : Char) : List Char :=
  if ch = '"' then ['\\', '"']
  else if ch = '\\' then ['\\', '\\']
  else if ch = '\n' then ['\\', 'n']
  else if ch = '\r' then ['\\', 'r']
  else if ch = '\t' then ['\\', 't']
  else [ch]

/-- JSON string literal for a value: opening quote, escaped characters,
closing quote. -/
def jsonStrData (s : String) : List Char :=
  '"' :: ((s.data.map jsonEscapeChar).flatten ++ ['"'])

/-- One `"key":"value"` member of the serialized object. -/
def renderPairData (k v : String) : List Char :=
  jsonStrData k ++ ':' :: jsonStrData v

/-- Key/value pairs JSON.stringify sees on a ScanConfig object, in declaration
order; a field holding `undefined` contributes no pair (JSON.stringify omits
undefined-valued properties). -/
def configPairs (c : ScanConfig) : List (String × String) :=
  ("target", c.target) ::
    ((match c.objective with | some o => [("objective", o)] | none => []) ++
     (match c.provider with | some p => [("provider", p)] | none => []) ++
     (match c.model with | some m => [("model", m)] | none => []))

/-- Comma-joining of the serialized members, as JSON.stringify does. -/
def joinCommaSep : List (List Char) → List Char
  | [] => []
  | [x] => x
  | x :: xs => x ++ ',' :: joinCommaSep xs

/-- Characters of `JSON.stringify(config)` (src/cli/src/utils/bridge.ts
line 31): a flat object of the present fields in declaration order. -/
def serializeConfigData (c : ScanConfig) : List Char :=
  '\x7b' :: (joinCommaSep ((configPairs c).map (fun kv => renderPairData kv.1 kv.2)) ++ ['\x7d'])

/-- Serialized ScanConfig as a string. -/
def serializeConfig (c : ScanConfig) : String := String.mk (serializeConfigData c)

/-- The single outbound line written to the process's stdin immediately after
spawn (src/cli/src/utils/bridge.ts line 31): `JSON.stringify(config) + '\n'`. -/
def outboundLine (c : ScanConfig) : String := serializeConfig c ++ "\n"

/-- Observable actions of a startScan run, in order: the spawn, the one config
write, then each onEvent delivery (src/cli/src/utils/bridge.ts lines 16-62).
The spawn is unconditional: the body starts by calling execa before looking at
the config. -/
inductive BridgeAction where
  | spawn
  | writeLine (s : String)
  | emit (e : ScanEvent)
deriving DecidableEq

/-- Action trace of startScan for a given config and process behavior:
spawn first, then the outbound config line, then the delivered events. -/
def startScanTrace (c : ScanConfig) (lines : List StdoutLine) (exitOk : Bool)
    (msg : String) (stk : Option String) : List BridgeAction :=
  BridgeAction.spawn ::
    BridgeAction.writeLine (outboundLine c) ::
      (runEvents lines exitOk msg stk).map BridgeAction.emit

/-- Docker status triple, from src/cli/src/types.ts (src/unnamed/part_002
lines 62-66). -/
structure DockerStatus where
  installed : Bool
  running : Bool
  imageBuilt : Bool
deriving DecidableEq

/-- Host platform as seen by `platform()` from node:os, matching the branches
taken in src/unnamed/part_003. -/
inductive Platform where
  | darwin
  | linux
  | other
deriving DecidableEq

/-- Remediation actions ensureDocker can perform: the install procedure, the
engine start command, one poll of `docker ps`, and the image build. -/
inductive DockerAction where
  | install
  | start
  | poll (i : Nat)
  | build
deriving DecidableEq

/-- External environment an ensureDocker run observes: outcomes of the external
commands it may invoke.  versionOk, psOk and imageListed are the initial probe
results (`docker --version`, `docker ps`, `docker images -q`); pollRunning i is
the outcome of the `docker ps` issued by poll attempt i of the start loop;
the remaining fields give the platform and the outcomes of the remediation
commands. -/
structure EngineEnv where
  versionOk : Bool
  psOk : Bool
  imageListed : Bool
  platform : Platform
  brewOk : Bool
  scriptOk : Bool
  scriptFailMsg : String
  openOk : Bool
  openFailMsg : String
  pollRunning : Nat → Bool
  buildOk : Bool
  buildFailMsg : String

/-- getDockerStatus (src/unnamed/part_003 lines 37-43): installed iff the
version query succeeds; running queried only if installed; imageBuilt queried
only if running. -/
def getDockerStatus (e : EngineEnv) : DockerStatus :=
  let installed := e.versionOk
  let running := if installed then e.psOk else false
  let imageBuilt := if running then e.imageListed else false
  ⟨installed, running, imageBuilt⟩

/-- installDockerMac (src/unnamed/part_003 lines 45-68): on darwin, brew
install or a manual-install error; on linux, the vendor script; elsewhere a
manual-install error. -/
def installDockerMac (e : EngineEnv) : Except String Unit :=
  match e.platform with
  | .darwin =>
    if e.brewOk then Except.ok ()
    else Except.error "Please install Docker Desktop from https://www.docker.com/products/docker-desktop"
  | .linux =>
    if e.scriptOk then Except.ok () else Except.error e.scriptFailMsg
  | .other =>
    Except.error "Please install Docker Desktop from https://www.docker.com/products/docker-desktop"

/-- startDockerDesktop (src/unnamed/part_003 lines 70-78): `open -a Docker` on
darwin, a manual-start error elsewhere. -/
def startDockerDesktop (e : EngineEnv) : Except String Unit :=
  match e.platform with
  | .darwin =>
    if e.openOk then Except.ok () else Except.error e.openFailMsg
  | _ => Except.error "Please start Docker manually"

/-- The polling loop of the start stage (src/unnamed/part_003 lines 116-122):
starting at attempt index i with the given fuel, sleep then probe; stop at the
first successful probe.  Returns whether a probe succeeded and the list of
attempt indices actually polled. -/
def pollFrom (p : Nat → Bool) : Nat → Nat → Bool × List Nat
  | _, 0 => (false, [])
  | i, fuel + 1 =>
    if p i then (true, [i])
    else
      let r := pollFrom p (i + 1) fuel
      (r.1, i :: r.2)

/-- Install stage of ensureDocker (src/unnamed/part_003 lines 103-108):
skipped when installed; otherwise the install procedure runs and on success
installed is marked true without re-probing. -/
def installStage (e : EngineEnv) (s : DockerStatus) :
    Except String DockerStatus × List DockerAction :=
  if s.installed then (Except.ok s, [])
  else
    match installDockerMac e with
    | Except.ok _ => (Except.ok ⟨true, s.running, s.imageBuilt⟩, [DockerAction.install])
    | Except.error m => (Except.error m, [DockerAction.install])

/-- Start stage of ensureDocker (src/unnamed/part_003 lines 111-128): skipped
when running; otherwise the start command runs, then up to 30 one-second poll
attempts; exhausting them throws the fixed timeout message. -/
def startStage (e : EngineEnv) (s : DockerStatus) :
    Except String DockerStatus × List DockerAction :=
  if s.running then (Except.ok s, [])
  else
    match startDockerDesktop e with
    | Except.error m => (Except.error m, [DockerAction.start])
    | Except.ok _ =>
      let pr := pollFrom e.pollRunning 0 30
      if pr.1 then
        (Except.ok ⟨s.installed, true, s.imageBuilt⟩,
         DockerAction.start :: pr.2.map DockerAction.poll)
      else
        (Except.error "Docker failed to start within 30 seconds",
         DockerAction.start :: pr.2.map DockerAction.poll)

/-- Build stage of ensureDocker (src/unnamed/part_003 lines 131-134, calling
buildSandboxImage at lines 80-95): skipped when the image is built; a failed
build throws with the wrapped message. -/
def buildStage (e : EngineEnv) (s : DockerStatus) :
    Except String DockerStatus × List DockerAction :=
  if s.imageBuilt then (Except.ok s, [])
  else if e.buildOk then (Except.ok ⟨s.installed, s.running, true⟩, [DockerAction.build])
  else (Except.error ("Failed to build sandbox image: " ++ e.buildFailMsg), [DockerAction.build])

/-- ensureDocker (src/unnamed/part_003 lines 97-137): probe once, then run the
install, start and build stages strictly in order, each entered only if every
prior stage succeeded; the first throw aborts the rest.  Returns the final
status (or the thrown message) together with the remediation actions actually
performed. -/
def ensureDocker (e : EngineEnv) : Except String DockerStatus × List DockerAction :=
  let s0 := getDockerStatus e
  let r1 := installStage e s0
  match r1.1 with
  | Except.error m => (Except.error m, r1.2)
  | Except.ok s1 =>
    let r2 := startStage e s1
    match r2.1 with
    | Except.error m => (Except.error m, r1.2 ++ r2.2)
    | Except.ok s2 =>
      let r3 := buildStage e s2
      match r3.1 with
      | Except.error m => (Except.error m, r1.2 ++ r2.2 ++ r3.2)
      | Except.ok s3 => (Except.ok s3, r1.2 ++ r2.2 ++ r3.2)

/-- Sample complete event used in concrete checks. -/
def sampleComplete : ScanEvent := ScanEvent.complete 2 10 none 1

/-- Sample progress event used in concrete checks. -/
def sampleProgress : ScanEvent := ScanEvent.progress "recon" "probing target" 2 none

/-- Sample vulnerability event A: shares a timestamp with sampleVulnB but
differs in every text field. -/
def sampleVulnA : ScanEvent := ScanEvent.vulnerability "HIGH" "SQL injection" "/login" "payload one" 7

/-- Sample vulnerability event B: shares a timestamp with sampleVulnA but
differs in every text field. -/
def sampleVulnB : ScanEvent := ScanEvent.vulnerability "LOW" "Reflected XSS" "/search" "payload two" 7

/-- Environment whose start-stage polling never observes a running engine:
installed, not running, darwin, every command succeeds, every poll fails. -/
def envTimeout : EngineEnv :=
  ⟨true, false, false, Platform.darwin, true, true, "", true, "", fun _ => false, true, ""⟩

/-- Environment whose initial probe reports everything ready. -/
def envReady : EngineEnv :=
  ⟨true, true, true, Platform.darwin, true, true, "", true, "", fun _ => true, true, ""⟩

/-- Helper: the display window is contained in the filtered history. -/
theorem displayEvents_subset (evs : List ScanEvent) :
    displayEvents evs ⊆ logEvents evs :=
  (List.drop_suffix _ _).subset

/-- Helper: every displayed event satisfies the log filter. -/
theorem displayEvents_isLog (evs : List ScanEvent) :
    ∀ e ∈ displayEvents evs, isLogEvent e = true := by
  intro e he
  exact (List.mem_filter.mp (displayEvents_subset evs he)).2

/-- C6: the display window never holds more than 15 entries, is a suffix of
the filtered history in original arrival order, contains only progress,
vulnerability, error and agent_action events, and never contains a complete
event. -/
theorem display_window_spec (evs : List ScanEvent) :
    (displayEvents evs).length ≤ 15
    ∧ displayEvents evs <:+ logEvents evs
    ∧ (∀ e ∈ displayEvents evs, isLogEvent e = true)
    ∧ (∀ v t c ts, ScanEvent.complete v t c ts ∉ displayEvents evs) := by
  refine ⟨?_, List.drop_suffix _ _, displayEvents_isLog evs, ?_⟩
  · have h : (displayEvents evs).length
        = (logEvents evs).length - ((logEvents evs).length - 15) := by
      simp [displayEvents]
    omega
  · intro v t c ts hm
    have h := displayEvents_isLog evs _ hm
    simp [isLogEvent] at h

/-- C6 witness: a concrete one-event history is displayed and classified as a
log event. -/
theorem display_window_spec_w :
    sampleProgress ∈ displayEvents [sampleProgress]
    ∧ isLogEvent sampleProgress = true :=
  ⟨by decide, (display_window_spec [sampleProgress]).2.2.1 sampleProgress (by decide)⟩

/-- C2 counterexample: after a complete event is recorded (setting the
completion flag), a later progress event is still accepted — the recorded
history grows by one entry, contradicting the claim that a terminal event
closes the session's stream. -/
theorem stream_after_terminal_cex :
    (recordEvent initState sampleComplete).isComplete = true
    ∧ (recordEvent (recordEvent initState sampleComplete) sampleProgress).events.length
        = (recordEvent initState sampleComplete).events.length + 1 := by
  decide

/-- C2 amended: a terminal event sets the completion flag permanently, but
does not close the stream — any later event whose dedup key is unseen is still
appended to the history, and a seen key is dropped, independently of the
completion flag. -/
theorem stream_after_terminal_amended (s : DisplayState) (e : ScanEvent) :
    (recordEvent s e).isComplete = (s.isComplete || isTerminal e)
    ∧ (s.seenKeys.contains (dedupKey e) = false →
        (recordEvent s e).events = s.events ++ [e])
    ∧ (s.seenKeys.contains (dedupKey e) = true →
        (recordEvent s e).events = s.events) := by
  by_cases hc : dedupKey e ∈ s.seenKeys <;>
    by_cases ht : isTerminal e <;>
      simp [recordEvent, hc, ht]

/-- C2 amended witness: concrete instance showing an unseen progress event is
appended after a complete event was recorded. -/
theorem stream_after_terminal_amended_w :
    (recordEvent initState sampleComplete).seenKeys.contains (dedupKey sampleProgress) = false
    ∧ (recordEvent (recordEvent initState sampleComplete) sampleProgress).events
        = (recordEvent initState sampleComplete).events ++ [sampleProgress] :=
  ⟨by decide,
   (stream_after_terminal_amended (recordEvent initState sampleComplete) sampleProgress).2.1
     (by decide)⟩

/-- C3 counterexample: two distinct vulnerability events sharing only a
timestamp receive the same dedup key (their absent `message` field reads as
"undefined"), so recording both keeps only the first — contradicting the claim
that distinct vulnerability events sharing a timestamp are not collapsed. -/
theorem dedup_vuln_collapse_cex :
    sampleVulnA ≠ sampleVulnB
    ∧ dedupKey sampleVulnA = dedupKey sampleVulnB
    ∧ (recordEvent (recordEvent initState sampleVulnA) sampleVulnB).events = [sampleVulnA] := by
  decide

/-- C3 amended: recording two events with identical dedup keys yields exactly
one entry, and the key is computed from (type, timestamp, message) where the
message part is the literal "undefined" for variants without a message field —
so any two vulnerability events sharing a timestamp, and any two agent_action
events sharing a timestamp, share a key and are collapsed. -/
theorem dedup_key_amended (e1 e2 : ScanEvent) (h : dedupKey e1 = dedupKey e2) :
    (recordEvent (recordEvent initState e1) e2).events.length = 1
    ∧ (∀ (sev t ep ev sev2 t2 ep2 ev2 : String) (ts : Nat),
        dedupKey (ScanEvent.vulnerability sev t ep ev ts)
          = dedupKey (ScanEvent.vulnerability sev2 t2 ep2 ev2 ts))
    ∧ (∀ (ag ac ag2 ac2 : String) (cm rs cm2 rs2 : Option String) (ts : Nat),
        dedupKey (ScanEvent.agentAction ag ac cm rs ts)
          = dedupKey (ScanEvent.agentAction ag2 ac2 cm2 rs2 ts)) := by
  refine ⟨?_, fun _ _ _ _ _ _ _ _ _ => rfl, fun _ _ _ _ _ _ _ _ _ => rfl⟩
  by_cases ht1 : isTerminal e1 <;>
    by_cases ht2 : isTerminal e2 <;>
      simp [recordEvent, initState, ht1, ht2, h]

/-- C3 amended witness: the two concrete same-timestamp vulnerability events
have equal keys and recording both yields exactly one entry. -/
theorem dedup_key_amended_w :
    dedupKey sampleVulnA = dedupKey sampleVulnB
    ∧ (recordEvent (recordEvent initState sampleVulnA) sampleVulnB).events.length = 1 :=
  ⟨by decide, (dedup_key_amended sampleVulnA sampleVulnB (by decide)).1⟩

/-- C1 counterexample: a process that exits cleanly (promise resolves) having
emitted no terminal line delivers zero terminal events (the catch branch is
never entered), and a process that delivers a complete line and then exits
abnormally delivers two terminal events — contradicting the claim that every
run delivers exactly one terminal event. -/
theorem bridge_terminal_count_cex :
    countTerminal (runEvents [] true "Scan failed" none) = 0
    ∧ countTerminal (runEvents [StdoutLine.parsed sampleComplete] false "exit code 1" none) = 2 := by
  decide

/-- C1 amended: the bridge synthesizes exactly one error event iff the awaited
process promise rejects (abnormal exit, signal or spawn failure), independently
of whether a terminal event was already delivered; in particular, a failing
process that emitted no terminal line yields exactly one terminal event, while
a clean exit adds none and an abnormal exit always adds one more. -/
theorem bridge_terminal_count_amended (lines : List StdoutLine) (msg : String)
    (stk : Option String) :
    countTerminal (runEvents lines true msg stk) = countTerminal (loopEvents lines)
    ∧ countTerminal (runEvents lines false msg stk) = countTerminal (loopEvents lines) + 1
    ∧ (countTerminal (loopEvents lines) = 0 →
        countTerminal (runEvents lines false msg stk) = 1) := by
  refine ⟨?_, ?_, ?_⟩
  · simp [runEvents, countTerminal, finishEvents]
  · simp [runEvents, countTerminal, finishEvents, synthesizedError, isTerminal]
  · intro h
    simp [runEvents, countTerminal, finishEvents, synthesizedError, isTerminal] at h ⊢
    simpa [countTerminal] using h

/-- C1 amended witness: the empty failing run has no loop terminal event and
exactly one delivered terminal event. -/
theorem bridge_terminal_count_amended_w :
    countTerminal (loopEvents ([] : List StdoutLine)) = 0
    ∧ countTerminal (runEvents [] false "spawn python3 ENOENT" none) = 1 :=
  ⟨by decide,
   (bridge_terminal_count_amended [] "spawn python3 ENOENT" none).2.2 (by decide)⟩

/-- C5 counterexample: a stdout line already buffered when stop() kills the
process is still parsed and delivered to onEvent — contradicting the claim
that no further onEvent calls occur after stop(). -/
theorem post_stop_delivery_cex :
    postStopEvents [StdoutLine.parsed sampleProgress] "killed with SIGTERM" none
      = [sampleProgress] := by
  decide

/-- C5 amended: stop() is idempotent — a second stop, or a stop on a bridge
whose process was never started, clears nothing and kills nothing; after
stop() has cleared the handle, the final await synthesizes no error event even
though the killed process's promise rejects; but onEvent is still called for
every parseable line that was already buffered when stop() ran. -/
theorem stop_idempotent_amended :
    (∀ h, stopBridge (stopBridge h).1 = (none, false))
    ∧ stopBridge none = (none, false)
    ∧ (∀ (exitOk : Bool) (msg : String) (stk : Option String),
        finishEvents (stopBridge (some ())).1 exitOk msg stk = [])
    ∧ (∀ (buffered : List StdoutLine) (msg : String) (stk : Option String),
        postStopEvents buffered msg stk = loopEvents buffered) := by
  refine ⟨?_, rfl, fun _ _ _ => rfl, ?_⟩
  · intro h
    cases h <;> rfl
  · intro buffered msg stk
    simp [postStopEvents, stopBridge, finishEvents]

/-- C10: the synthesized error event carries only type, message and stack — its
timestamp field is absent — so a run whose process fails with no terminal line
delivers to the consumer an event without a timestamp, while every non-error
variant of the event type necessarily carries one. -/
theorem synthesized_error_no_timestamp (lines : List StdoutLine) (msg : String)
    (stk : Option String) :
    runEvents lines false msg stk = loopEvents lines ++ [ScanEvent.error msg stk none]
    ∧ timestampOf (synthesizedError msg stk) = none
    ∧ synthesizedError msg stk ∈ runEvents lines false msg stk
    ∧ (∀ e : ScanEvent, (timestampOf e).isSome = true ∨ isErrorEvent e = true) := by
  refine ⟨rfl, rfl, ?_, ?_⟩
  · simp [runEvents, finishEvents]
  · intro e
    cases e <;> simp [timestampOf, isErrorEvent]

/-- C4 counterexample: a submitted empty target is accepted by the input flow
(the config with empty target is produced) and the bridge's first action for
that config is the spawn — contradicting the claim that an empty-target config
is rejected before any process is spawned. -/
theorem empty_target_spawn_cex :
    submitFlow "" "Focus on OWASP Top 10" = some (mkConfig "" "Focus on OWASP Top 10")
    ∧ (mkConfig "" "Focus on OWASP Top 10").target = ""
    ∧ (startScanTrace (mkConfig "" "Focus on OWASP Top 10") [] true "m" none).head?
        = some BridgeAction.spawn := by
  decide

/-- C4 amended: no boundary validation exists — every pair of submitted
strings, including an empty target, produces a config that is handed on, and
startScan's first observable action for any config whatsoever is the spawn. -/
theorem empty_target_no_validation_amended (t o : String) (lines : List StdoutLine)
    (exitOk : Bool) (msg : String) (stk : Option String) :
    submitFlow t o = some (mkConfig t o)
    ∧ (startScanTrace (mkConfig t o) lines exitOk msg stk).head?
        = some BridgeAction.spawn := by
  exact ⟨rfl, rfl⟩

/-- Helper: shifting a cons into a range map — the attempt indices starting at
i with one more attempt in front. -/
theorem cons_map_shift (i n : Nat) :
    i :: (List.range n).map (fun j => i + 1 + j)
      = (List.range (n + 1)).map (fun j => i + j) := by
  rw [List.range_succ_eq_map]
  have hf : ((fun j => i + j) ∘ Nat.succ) = (fun j => i + 1 + j) :=
    funext (fun j => by simp only [Function.comp_apply, Nat.succ_eq_add_one]; omega)
  simp [List.map_map, hf]

/-- Helper: when every probe in reach fails, the polling loop exhausts its fuel
and polls every attempt index once, in order. -/
theorem pollFrom_all_false (p : Nat → Bool) :
    ∀ (fuel i : Nat), (∀ j, j < fuel → p (i + j) = false) →
      pollFrom p i fuel = (false, (List.range fuel).map (fun j => i + j)) := by
  intro fuel
  induction fuel with
  | zero => intro i _; rfl
  | succ n ih =>
    intro i h
    have h0 : p i = false := by simpa using h 0 (Nat.succ_pos n)
    have hrec : pollFrom p (i + 1) n = (false, (List.range n).map (fun j => i + 1 + j)) := by
      refine ih (i + 1) (fun j hj => ?_)
      have := h (j + 1) (by omega)
      simpa [Nat.add_assoc, Nat.add_comm, Nat.add_left_comm] using this
    simp [pollFrom, h0, hrec, cons_map_shift]

/-- Helper: the first successful probe breaks the polling loop — attempts stop
right at the first index whose probe succeeds. -/
theorem pollFrom_first_true (p : Nat → Bool) :
    ∀ (fuel k i : Nat), k < fuel → (∀ j, j < k → p (i + j) = false) → p (i + k) = true →
      pollFrom p i fuel = (true, (List.range (k + 1)).map (fun j => i + j)) := by
  intro fuel
  induction fuel with
  | zero => intro k i hk _ _; exact absurd hk (Nat.not_lt_zero k)
  | succ n ih =>
    intro k i hk hfalse htrue
    cases k with
    | zero =>
      have h0 : p i = true := by simpa using htrue
      simp [pollFrom, h0, List.range_succ_eq_map]
    | succ m =>
      have h0 : p i = false := by simpa using hfalse 0 (Nat.succ_pos m)
      have hrec : pollFrom p (i + 1) n
          = (true, (List.range (m + 1)).map (fun j => i + 1 + j)) := by
        refine ih m (i + 1) (by omega) (fun j hj => ?_) ?_
        · have := hfalse (j + 1) (by omega)
          simpa [Nat.add_assoc, Nat.add_comm, Nat.add_left_comm] using this
        · have := htrue
          simpa [Nat.add_assoc, Nat.add_comm, Nat.add_left_comm] using this
      simp [pollFrom, h0, hrec, cons_map_shift]

/-- C7: when the engine is installed but not running on a darwin host whose
start command succeeds and whose 30 poll attempts all fail, ensureDocker fails
with exactly the timeout message after the start action and the 30 polls, its
action list contains no build action, and in general the polling loop breaks at
the first successful attempt. -/
theorem start_timeout_spec (e : EngineEnv)
    (h1 : e.versionOk = true) (h2 : e.psOk = false)
    (h3 : e.platform = Platform.darwin) (h4 : e.openOk = true)
    (h5 : ∀ i, i < 30 → e.pollRunning i = false) :
    ensureDocker e
        = (Except.error "Docker failed to start within 30 seconds",
           DockerAction.start :: (List.range 30).map DockerAction.poll)
    ∧ DockerAction.build ∉ (ensureDocker e).2
    ∧ (∀ (p : Nat → Bool) (k : Nat), k < 30 → (∀ i, i < k → p i = false) → p k = true →
        pollFrom p 0 30 = (true, List.range (k + 1))) := by
  have hpoll : pollFrom e.pollRunning 0 30 = (false, List.range 30) := by
    have h := pollFrom_all_false e.pollRunning 30 0 (fun j hj => by simpa using h5 j hj)
    simpa using h
  have hmain : ensureDocker e
      = (Except.error "Docker failed to start within 30 seconds",
         DockerAction.start :: (List.range 30).map DockerAction.poll) := by
    simp [ensureDocker, getDockerStatus, installStage, startStage, startDockerDesktop,
      h1, h2, h3, h4, hpoll]
  refine ⟨hmain, ?_, ?_⟩
  · rw [hmain]
    simp
  · intro p k hk hf ht
    have h := pollFrom_first_true p 30 k 0 hk (fun j hj => by simpa using hf j hj)
      (by simpa using ht)
    simpa using h

/-- C7 witness: the concrete environment whose polls all fail satisfies the
hypotheses, and ensureDocker on it produces exactly the timeout failure with
the start action and 30 polls. -/
theorem start_timeout_spec_w :
    (∀ i, i < 30 → envTimeout.pollRunning i = false)
    ∧ ensureDocker envTimeout
        = (Except.error "Docker failed to start within 30 seconds",
           DockerAction.start :: (List.range 30).map DockerAction.poll) :=
  ⟨fun _ _ => rfl,
   (start_timeout_spec envTimeout rfl rfl rfl rfl (fun _ _ => rfl)).1⟩

/-- C8: when the initial probe reports installed, running and image built all
true, ensureDocker performs zero remediation actions — no install, no start,
no poll, no build — and returns the fully-ready status; hence a repeat call in
a ready environment does only the cheap probe. -/
theorem ensure_ready_idempotent (e : EngineEnv)
    (h1 : e.versionOk = true) (h2 : e.psOk = true) (h3 : e.imageListed = true) :
    ensureDocker e = (Except.ok ⟨true, true, true⟩, []) := by
  simp [ensureDocker, getDockerStatus, installStage, startStage, buildStage, h1, h2, h3]

/-- C8 witness: the concrete fully-ready environment satisfies the hypotheses
and ensureDocker on it returns the ready status with an empty action list. -/
theorem ensure_ready_idempotent_w :
    (envReady.versionOk = true ∧ envReady.psOk = true ∧ envReady.imageListed = true)
    ∧ ensureDocker envReady = (Except.ok ⟨true, true, true⟩, []) :=
  ⟨⟨rfl, rfl, rfl⟩, ensure_ready_idempotent envReady rfl rfl rfl⟩

/-- Helper: the escaping of a single character never emits a raw newline. -/
theorem nl_not_mem_jsonEscapeChar (ch : Char) : '\n' ∉ jsonEscapeChar ch := by
  unfold jsonEscapeChar
  split_ifs with h1 h2 h3 h4 h5
  · decide
  · decide
  · decide
  · decide
  · decide
  · intro hm
    exact h3 (List.mem_singleton.mp hm).symm

/-- Helper: a serialized JSON string value contains no raw newline. -/
theorem nl_not_mem_jsonStrData (s : String) : '\n' ∉ jsonStrData s := by
  intro hm
  rcases List.mem_cons.mp hm with h | h
  · exact absurd h (by decide)
  rcases List.mem_append.mp h with h | h
  · rcases List.mem_flatten.mp h with ⟨l, hl, hal⟩
    rcases List.mem_map.mp hl with ⟨ch, _, rfl⟩
    exact nl_not_mem_jsonEscapeChar ch hal
  · exact absurd (List.mem_singleton.mp h) (by decide)

/-- Helper: a serialized key/value member contains no raw newline. -/
theorem nl_not_mem_renderPairData (k v : String) : '\n' ∉ renderPairData k v := by
  intro hm
  rcases List.mem_append.mp hm with h | h
  · exact nl_not_mem_jsonStrData k h
  rcases List.mem_cons.mp h with h | h
  · exact absurd h (by decide)
  · exact nl_not_mem_jsonStrData v h

/-- Helper: comma-joining newline-free member lists stays newline-free. -/
theorem nl_not_mem_joinCommaSep (xs : List (List Char))
    (h : ∀ l ∈ xs, '\n' ∉ l) : '\n' ∉ joinCommaSep xs := by
  induction xs with
  | nil => simp [joinCommaSep]
  | cons x xs ih =>
    cases xs with
    | nil => exact h x (List.mem_singleton.mpr rfl)
    | cons y ys =>
      intro hm
      rcases List.mem_append.mp hm with hx | hx
      · exact h x (List.mem_cons_self x _) hx
      rcases List.mem_cons.mp hx with hx | hx
      · exact absurd hx (by decide)
      · exact ih (fun l hl => h l (List.mem_cons_of_mem x hl)) hx

/-- Helper: the full serialized config contains no raw newline character. -/
theorem nl_not_mem_serializeConfigData (c : ScanConfig) :
    '\n' ∉ serializeConfigData c := by
  intro hm
  rcases List.mem_cons.mp hm with h | h
  · exact absurd h (by decide)
  rcases List.mem_append.mp h with h | h
  · refine nl_not_mem_joinCommaSep _ ?_ h
    intro l hl
    rcases List.mem_map.mp hl with ⟨kv, _, rfl⟩
    exact nl_not_mem_renderPairData kv.1 kv.2
  · exact absurd (List.mem_singleton.mp h) (by decide)

/-- C9: the outbound line is the serialized config followed by exactly one
newline (the body itself contains none, every newline inside a field value
being escaped); a config whose objective, provider or model is unset
contributes no pair under that key — the key is omitted, never encoded as an
empty string; and an empty objective typed by the user is converted to absent
before serialization. -/
theorem outbound_line_spec (c : ScanConfig) :
    (outboundLine c).data = serializeConfigData c ++ ['\n']
    ∧ (serializeConfigData c).count '\n' = 0
    ∧ (c.objective = none → "objective" ∉ (configPairs c).map Prod.fst)
    ∧ (c.provider = none → "provider" ∉ (configPairs c).map Prod.fst)
    ∧ (c.model = none → "model" ∉ (configPairs c).map Prod.fst)
    ∧ (∀ t : String, (mkConfig t "").objective = none) := by
  refine ⟨rfl, List.count_eq_zero.mpr (nl_not_mem_serializeConfigData c), ?_, ?_, ?_, ?_⟩
  · intro h
    rcases c with ⟨tg, ob, pv, md⟩
    cases h
    cases pv <;> cases md <;> simp [configPairs]
  · intro h
    rcases c with ⟨tg, ob, pv, md⟩
    cases h
    cases ob <;> cases md <;> simp [configPairs]
  · intro h
    rcases c with ⟨tg, ob, pv, md⟩
    cases h
    cases ob <;> cases pv <;> simp [configPairs]
  · intro t
    rfl

/-- C9 witness: the example config with an empty typed objective has an absent
objective, and its serialized pair list carries no objective key. -/
theorem outbound_line_spec_w :
    (mkConfig "example.com" "").objective = none
    ∧ "objective" ∉ (configPairs (mkConfig "example.com" "")).map Prod.fst :=
  ⟨rfl, (outbound_line_spec (mkConfig "example.com" "")).2.2.1 rfl⟩
